import Mathlib

/-!
# Analytics Hub — formal model of the Store and Router

A shallow embedding of the data layer (`DataStore` in the zone-renderer
bundle) and the navigation state machine (`AppRouter` in router.js) of the
Analytics Hub application, together with proofs and refutations of the
specification claims about them.

Conventions of the embedding:
* ISO date strings are modelled by their timestamp as an `Int`
  (`new Date(s) - new Date(t)` in the source compares timestamps).
* A nullable string field is an `Option String` (`none` = `null`).
* `Array.prototype.sort` is required by the language standard to be a
  stable sort consistent with the comparator; it is modelled by
  `List.insertionSort`, which is stable and consistent with the
  corresponding order relation.
* `localStorage` contents are modelled per key by a `Slot`
  (absent / unparseable / parsed list); see the migration section.
-/

namespace AnalyticsHub

/-- Urgency of a request. The UI only ever submits one of the three values
of the `request-urgency` select, so the field is modelled as a closed
enumeration. -/
inductive Urgency
  | high
  | medium
  | low
deriving DecidableEq, Repr

/-- The `urgencyOrder` table of `sortRequestsByUrgencyAndDate`:
`{ high: 0, medium: 1, low: 2 }`. -/
def urgencyOrder : Urgency → Nat
  | .high => 0
  | .medium => 1
  | .low => 2

/-- A Request record (`addRequest` shape). -/
structure Request where
  id : String
  description : String
  requester : String
  urgency : Urgency
  divisionId : Option String
  projectId : Option String
  dateSubmitted : Int
deriving DecidableEq, Repr

/-- An InProgressItem record (`addInProgressItem` shape). -/
structure InProgressItem where
  id : String
  taskDescription : String
  requester : String
  status : String
  targetCompletionDate : Option Int
  divisionId : Option String
  projectId : Option String
  dateCreated : Int
deriving DecidableEq, Repr

/-- A Report record (`addReport` shape). -/
structure Report where
  id : String
  title : String
  datePublished : Int
  description : String
  linkUrl : String
  isActive : Bool
  divisionId : Option String
  projectId : Option String
  category : String
deriving DecidableEq, Repr

/-- A ControlItem record (`addControlItem` shape). -/
structure ControlItem where
  id : String
  projectId : Option String
  title : String
  description : String
  assignee : String
  frequency : String
  lastCompleted : Option Int
  nextDue : Option Int
  status : String
  dateCreated : Int
deriving DecidableEq, Repr

/-- A Project record (`addProject` shape). -/
structure Project where
  id : String
  name : String
  divisionId : String
  isActive : Bool
  dateCreated : Int
deriving DecidableEq, Repr

/-- The parsed contents of the persisted collections the claims are about.
Every Store getter reads its collection fresh via `getData`; a `Store`
value is the parsed view of those collections. -/
structure Store where
  projects : List Project
  requests : List Request
  inProgressItems : List InProgressItem
  reports : List Report
  controlItems : List ControlItem
deriving DecidableEq, Repr

/-- JavaScript truthiness of a nullable id, as used by the
`getUnassigned*` filters `!r.projectId`: `null`/`undefined` and the empty
string are falsy, every other string is truthy. -/
def jsIdFalsy : Option String → Bool
  | none => true
  | some s => s == ""

-- =====================
-- REQUESTS
-- =====================

/-- The order imposed by the comparator of `sortRequestsByUrgencyAndDate`:
`a` may come before `b` iff the comparator returns a value `≤ 0`, i.e.
`a`'s urgency rank is smaller, or the ranks tie and `a`'s submission date
is at least `b`'s (date descending). -/
def requestLe (a b : Request) : Prop :=
  urgencyOrder a.urgency < urgencyOrder b.urgency ∨
    (urgencyOrder a.urgency = urgencyOrder b.urgency ∧ b.dateSubmitted ≤ a.dateSubmitted)

instance : DecidableRel requestLe := fun a b =>
  inferInstanceAs (Decidable (urgencyOrder a.urgency < urgencyOrder b.urgency ∨
    (urgencyOrder a.urgency = urgencyOrder b.urgency ∧ b.dateSubmitted ≤ a.dateSubmitted)))

instance : IsTotal Request requestLe :=
  ⟨by intro a b; unfold requestLe; omega⟩

instance : IsTrans Request requestLe :=
  ⟨by intro a b c hab hbc; unfold requestLe at hab hbc ⊢; omega⟩

/-- `sortRequestsByUrgencyAndDate`: stable sort by urgency ascending,
submission date descending. -/
def sortRequestsByUrgencyAndDate (requests : List Request) : List Request :=
  List.insertionSort requestLe requests

/-- `getRequests()`. -/
def getRequests (store : Store) : List Request :=
  sortRequestsByUrgencyAndDate store.requests

/-- `getRequestsByProject(projectId)`: filter `r.projectId === projectId`,
then sort. -/
def getRequestsByProject (store : Store) (projectId : String) : List Request :=
  sortRequestsByUrgencyAndDate (store.requests.filter (fun r => r.projectId == some projectId))

/-- `getUnassignedRequests()`: filter `!r.projectId`, then sort. -/
def getUnassignedRequests (store : Store) : List Request :=
  sortRequestsByUrgencyAndDate (store.requests.filter (fun r => jsIdFalsy r.projectId))

-- =====================
-- IN PROGRESS
-- =====================

/-- `getInProgressByProject(projectId)`. -/
def getInProgressByProject (store : Store) (projectId : String) : List InProgressItem :=
  store.inProgressItems.filter (fun i => i.projectId == some projectId)

/-- `getUnassignedInProgress()`. -/
def getUnassignedInProgress (store : Store) : List InProgressItem :=
  store.inProgressItems.filter (fun i => jsIdFalsy i.projectId)

-- =====================
-- REPORTS
-- =====================

/-- Publish-date-descending order used by `getReportsByProject`. -/
def reportDateLe (a b : Report) : Prop :=
  b.datePublished ≤ a.datePublished

instance : DecidableRel reportDateLe := fun a b =>
  inferInstanceAs (Decidable (b.datePublished ≤ a.datePublished))

/-- `getReportsByProject(projectId, activeOnly = false)`. -/
def getReportsByProject (store : Store) (projectId : String) (activeOnly : Bool) : List Report :=
  let reports := store.reports.filter (fun r => r.projectId == some projectId)
  let reports := if activeOnly then reports.filter (fun r => r.isActive) else reports
  List.insertionSort reportDateLe reports

/-- `getUnassignedReports()`: filter `!r.projectId` (no sort). -/
def getUnassignedReports (store : Store) : List Report :=
  store.reports.filter (fun r => jsIdFalsy r.projectId)

-- =====================
-- CONTROL ITEMS
-- =====================

/-- The `statusOrder` table of `getControlItems`:
`{ overdue: 0, upcoming: 1, current: 2 }`; any other status misses the
table (`undefined`). -/
def statusOrderLookup (s : String) : Option Nat :=
  if s = "overdue" then some 0
  else if s = "upcoming" then some 1
  else if s = "current" then some 2
  else none

/-- JavaScript `v || d` on a `Nat`-or-`undefined` value: `undefined` and
`0` are falsy and yield the default `d`. -/
def jsOrElse (v : Option Nat) (d : Nat) : Nat :=
  match v with
  | none => d
  | some k => if k = 0 then d else k

/-- The effective sort key `(statusOrder[c.status] || 2)` of
`getControlItems`. -/
def controlSortKey (c : ControlItem) : Nat :=
  jsOrElse (statusOrderLookup c.status) 2

/-- The order imposed by the `getControlItems` comparator. -/
def controlLe (a b : ControlItem) : Prop :=
  controlSortKey a ≤ controlSortKey b

instance : DecidableRel controlLe := fun a b =>
  inferInstanceAs (Decidable (controlSortKey a ≤ controlSortKey b))

/-- `getControlItems(projectId)`: filter by project, stable-sort by the
effective status key. -/
def getControlItems (store : Store) (projectId : String) : List ControlItem :=
  List.insertionSort controlLe
    (store.controlItems.filter (fun c => c.projectId == some projectId))

-- =====================
-- PROJECTS
-- =====================

/-- `getProjectById(id)` (`find` over the projects collection, `null` when
absent). -/
def getProjectById (store : Store) (id : String) : Option Project :=
  store.projects.find? (fun p => p.id == id)

/-- The caller-supplied argument of `addProject`. Callers may include an
`isActive` field; `addProject` never reads it. -/
structure ProjectInput where
  name : String
  divisionId : String
  isActive : Option Bool := none
deriving DecidableEq, Repr

/-- The record built by `addProject`: fresh id, trimmed name, the supplied
division, `isActive: true` (a literal, independent of the input), creation
timestamp. -/
def addProjectRecord (input : ProjectInput) (newId : String) (now : Int) : Project :=
  { id := newId
    name := input.name.trim
    divisionId := input.divisionId
    isActive := true
    dateCreated := now }

/-- `addProject(projectData)`: append the new record and return it. -/
def addProject (store : Store) (input : ProjectInput) (newId : String) (now : Int) :
    Store × Project :=
  let p := addProjectRecord input newId now
  ({ store with projects := store.projects ++ [p] }, p)

/-- A (partial) update object passed to `updateProject`; `Object.assign`
overwrites exactly the supplied fields. -/
structure ProjectUpdates where
  name : Option String := none
  divisionId : Option String := none
  isActive : Option Bool := none
deriving DecidableEq, Repr

/-- `Object.assign(project, updates)`. -/
def applyProjectUpdates (p : Project) (u : ProjectUpdates) : Project :=
  { p with
    name := u.name.getD p.name
    divisionId := u.divisionId.getD p.divisionId
    isActive := u.isActive.getD p.isActive }

/-- Replace the first record with the given id (the `find` + in-place
mutation of `updateProject`). -/
def replaceFirstProject (l : List Project) (id : String) (p2 : Project) : List Project :=
  match l with
  | [] => []
  | q :: rest => if q.id == id then p2 :: rest else q :: replaceFirstProject rest id p2

/-- `updateProject(id, updates)`. -/
def updateProject (store : Store) (id : String) (u : ProjectUpdates) :
    Store × Option Project :=
  match getProjectById store id with
  | none => (store, none)
  | some p =>
    let p2 := applyProjectUpdates p u
    ({ store with projects := replaceFirstProject store.projects id p2 }, some p2)

/-- `deleteProject(id)`: remove the project record itself; no other
collection is touched (the boolean result of `saveData` is modelled
separately, in the failure-semantics section). -/
def deleteProject (store : Store) (id : String) : Store :=
  { store with projects := store.projects.filter (fun p => !(p.id == id)) }

-- =====================
-- ROUTER (router.js)
-- =====================

/-- The Router state object of router.js (value view; the aliasing
behaviour of `getState` is modelled separately below). -/
structure RouterState where
  currentView : String
  selectedDivisionId : Option String
  selectedProjectId : Option String
  activeZone : Nat
  expandedDivisions : List String
  globalSearchTerm : String
  reportsSearchTerm : String
  showActiveProjectsOnly : Bool
deriving DecidableEq, Repr

/-- The initial Router state. -/
def initialRouterState : RouterState :=
  { currentView := "home"
    selectedDivisionId := none
    selectedProjectId := none
    activeZone := 1
    expandedDivisions := []
    globalSearchTerm := ""
    reportsSearchTerm := ""
    showActiveProjectsOnly := true }

/-!
Each transition returns the new state together with the number of times it
invoked the registered render callback (`triggerRender` with
`renderCallback` bound by `init`).
-/

/-- `navigate(view, params)`: set the view, `Object.assign` the optional
params (modelled as an arbitrary state modifier), render. -/
def navigate (view : String) (params : Option (RouterState → RouterState))
    (st : RouterState) : RouterState × Nat :=
  let st1 := { st with currentView := view }
  (match params with
   | some f => f st1
   | none => st1, 1)

/-- `selectProject(projectId)`: guarded by a Store lookup; when the
project is absent the function returns before any state change and before
`triggerRender`. -/
def selectProject (store : Store) (projectId : String) (st : RouterState) :
    RouterState × Nat :=
  match getProjectById store projectId with
  | none => (st, 0)
  | some project =>
    let st1 := { st with
      currentView := "project"
      selectedProjectId := some projectId
      selectedDivisionId := some project.divisionId
      activeZone := 1
      reportsSearchTerm := "" }
    let st2 :=
      if st1.expandedDivisions.contains project.divisionId then st1
      else { st1 with expandedDivisions := st1.expandedDivisions ++ [project.divisionId] }
    (st2, 1)

/-- `setActiveZone(zoneNumber)`. -/
def setActiveZone (zoneNumber : Nat) (st : RouterState) : RouterState × Nat :=
  ({ st with activeZone := zoneNumber, reportsSearchTerm := "" }, 1)

/-- `toggleDivision(divisionId)`: push when absent, splice out the first
occurrence when present. -/
def toggleDivision (divisionId : String) (st : RouterState) : RouterState × Nat :=
  (if st.expandedDivisions.contains divisionId then
    { st with expandedDivisions := st.expandedDivisions.erase divisionId }
  else
    { st with expandedDivisions := st.expandedDivisions ++ [divisionId] }, 1)

/-- `setGlobalSearch(term)`. -/
def setGlobalSearch (term : String) (st : RouterState) : RouterState × Nat :=
  ({ st with globalSearchTerm := term }, 1)

/-- `setReportsSearch(term)`. -/
def setReportsSearch (term : String) (st : RouterState) : RouterState × Nat :=
  ({ st with reportsSearchTerm := term }, 1)

/-- `setActiveProjectsOnly(value)`. -/
def setActiveProjectsOnly (value : Bool) (st : RouterState) : RouterState × Nat :=
  ({ st with showActiveProjectsOnly := value }, 1)

/-- `goHome()`. -/
def goHome (st : RouterState) : RouterState × Nat :=
  ({ st with
    currentView := "home"
    selectedProjectId := none
    selectedDivisionId := none
    activeZone := 1
    globalSearchTerm := ""
    reportsSearchTerm := "" }, 1)

-- =====================
-- STORAGE PRIMITIVES AND FAILURE SEMANTICS
-- =====================

/-!
`getData`/`saveData` wrap `localStorage` with a try/catch. A stored value
under one key is modelled by a `Slot`:
* `none` — the key is absent (`getItem` returns `null`);
* `some none` — present but unreadable (`JSON.parse` throws);
* `some (some l)` — present and parses to the list `l`
(`JSON.stringify` then `JSON.parse` is the identity on plain records, so
a written list round-trips to itself).
-/

/-- Raw per-record contents relevant to the schema migration. A field of
type `Option (Option String)` distinguishes absent (`none`), present-null
(`some none`) and present-string; `payload` stands for all remaining
fields, which the migration never touches. -/
structure MigItem where
  divisionId : Option (Option String) := none
  clientId : Option (Option String) := none
  projectId : Option (Option String) := none
  category : Option String := none
  payload : String := ""
deriving DecidableEq, Repr

/-- A `localStorage` slot for one collection key. -/
abbrev Slot := Option (Option (List MigItem))

/-- `getData(key)`: parse the stored JSON; on a missing key or a parse
error return the empty collection. -/
def getData : Slot → List MigItem
  | some (some l) => l
  | _ => []

/-- The slot contents produced by a successful `saveData(key, items)`. -/
def writeItems (l : List MigItem) : Slot :=
  some (some l)

/-- `saveData(key, data)`: `setItem` inside a try/catch. `writeOk` is
whether the backing store accepts the write (`setItem` throws on quota
exceeded or disabled storage); on failure the function returns `false`
and the slot keeps its previous contents. -/
def saveData (writeOk : Bool) (slot : Slot) (items : List MigItem) : Bool × Slot :=
  if writeOk then (true, writeItems items) else (false, slot)

-- =====================
-- MIGRATION (runMigration)
-- =====================

/-- The whole `localStorage` state touched by `runMigration`: one slot per
collection key, the legacy `analyticsHub_clients` slot, and the
`analyticsHub_schemaVersion` value. The version is stored as a string;
it is modelled by its `parseInt` image: `none` for the key being absent,
`some none` for a string that parses to `NaN`, `some (some k)` for a
string parsing to the integer `k`. -/
structure Storage where
  requests : Slot := none
  inProgress : Slot := none
  reports : Slot := none
  projects : Slot := none
  documents : Slot := none
  dashboardLinks : Slot := none
  controlItems : Slot := none
  clients : Slot := none
  schemaVersion : Option (Option Int) := none
deriving DecidableEq, Repr

/-- `parseInt(localStorage.getItem(SCHEMA_VERSION) || '0', 10)`: an absent
key falls back to the string `'0'`; an unreadable number is `NaN`
(modelled `none`). -/
def parsedVersion (s : Storage) : Option Int :=
  match s.schemaVersion with
  | none => some 0
  | some v => v

/-- `currentVersion < n` in JavaScript: every comparison against `NaN` is
false. -/
def versionLt (v : Option Int) (n : Int) : Bool :=
  match v with
  | some k => k < n
  | none => false

/-- The v0→v1 per-record normalisation applied to requests, in-progress
items and reports: default `divisionId` to `null` when absent, rename
`clientId` to `projectId` when present, then default `projectId` to
`null` when still absent. -/
def mig1Item (it : MigItem) : MigItem :=
  let it1 := if it.divisionId = none then { it with divisionId := some none } else it
  let it2 :=
    match it1.clientId with
    | some v => { it1 with projectId := some v, clientId := none }
    | none => it1
  if it2.projectId = none then { it2 with projectId := some none } else it2

/-- The v0→v1 category default for reports: `category = 'recurring'` when
absent. -/
def categoryDefault (it : MigItem) : MigItem :=
  if it.category = none then { it with category := some "recurring" } else it

/-- The v1→v2 per-record rename: `clientId` to `projectId` when present. -/
def mig2Item (it : MigItem) : MigItem :=
  match it.clientId with
  | some v => { it with projectId := some v, clientId := none }
  | none => it

/-- The v1→v2 treatment of one collection slot: rewrite the slot only when
some record actually carried a `clientId` (the `changed` flag guarding
`saveData`); an absent or unreadable slot is left alone. -/
def mig2Slot (sl : Slot) : Slot :=
  match sl with
  | some (some l) =>
    if l.any (fun it => it.clientId.isSome) then writeItems (l.map mig2Item) else sl
  | _ => sl

/-- The body of the `currentVersion < 1` migration step, except for the
final version write. Writes are modelled as succeeding (`saveData` with a
writable backing store). -/
def step1core (s : Storage) : Storage :=
  let s1 := { s with
    requests := writeItems ((getData s.requests).map mig1Item)
    inProgress := writeItems ((getData s.inProgress).map mig1Item)
    reports := writeItems ((getData s.reports).map mig1Item) }
  let s2 := { s1 with reports := writeItems ((getData s1.reports).map categoryDefault) }
  let s3 :=
    match s2.clients with
    | some c =>
      if s2.projects = none then { s2 with projects := some c, clients := none } else s2
    | none => s2
  let s4 := if s3.projects = none then { s3 with projects := writeItems [] } else s3
  let s5 := if s4.documents = none then { s4 with documents := writeItems [] } else s4
  let s6 := if s5.dashboardLinks = none then { s5 with dashboardLinks := writeItems [] } else s5
  if s6.controlItems = none then { s6 with controlItems := writeItems [] } else s6

/-- The `currentVersion < 1` step: migrate and finish by persisting
version `'1'`. -/
def step1 (s : Storage) : Storage :=
  { step1core s with schemaVersion := some (some 1) }

/-- The body of the `currentVersion < 2` migration step, except for the
final version write. The legacy clients slot replaces the projects slot
when the latter is absent or holds the canonical empty list (the source
compares the raw string against `'[]'`); it is removed in either case. -/
def step2core (s : Storage) : Storage :=
  let s1 := { s with
    requests := mig2Slot s.requests
    inProgress := mig2Slot s.inProgress
    reports := mig2Slot s.reports
    documents := mig2Slot s.documents
    dashboardLinks := mig2Slot s.dashboardLinks
    controlItems := mig2Slot s.controlItems }
  match s1.clients with
  | some c =>
    let s2 :=
      if s1.projects = none ∨ s1.projects = writeItems [] then
        { s1 with projects := some c }
      else s1
    { s2 with clients := none }
  | none => s1

/-- The `currentVersion < 2` step: migrate and finish by persisting
version `'2'`. -/
def step2 (s : Storage) : Storage :=
  { step2core s with schemaVersion := some (some 2) }

/-- `runMigration()`: read the persisted version once, then run each step
whose guard `currentVersion < N` holds (both guards compare against the
version read at the start). -/
def runMigration (s : Storage) : Storage :=
  if versionLt (parsedVersion s) 2 then
    step2 (if versionLt (parsedVersion s) 1 then step1 s else s)
  else
    (if versionLt (parsedVersion s) 1 then step1 s else s)

/-- The net per-record transformation `runMigration` applies to a request
or in-progress record, as a function of the pre-migration version. -/
def entityMig (v : Option Int) (it : MigItem) : MigItem :=
  if versionLt v 1 then mig1Item it
  else if versionLt v 2 then mig2Item it
  else it

/-- The net per-record transformation `runMigration` applies to a report
record, as a function of the pre-migration version. -/
def reportMig (v : Option Int) (it : MigItem) : MigItem :=
  if versionLt v 1 then categoryDefault (mig1Item it)
  else if versionLt v 2 then mig2Item it
  else it

-- =====================
-- ROUTER getState ALIASING (reference-level model)
-- =====================

/-!
`getState` returns `{ ...state }`: a new object whose fields are copied
from the internal state object. Spread copy is shallow: the
`expandedDivisions` field is copied as an array reference, so the
returned object and the internal state point at the same array. To state
claims about this, the array is held in an explicit heap and the state
object stores a reference into it.
-/

/-- The state object with `expandedDivisions` as a heap reference. -/
structure StateObj where
  currentView : String
  selectedDivisionId : Option String
  selectedProjectId : Option String
  activeZone : Nat
  expandedDivisionsRef : Nat
  globalSearchTerm : String
  reportsSearchTerm : String
  showActiveProjectsOnly : Bool
deriving DecidableEq, Repr

/-- The Router-internal memory: the array heap and the internal state
object. -/
structure RouterMem where
  arrays : List (List String)
  state : StateObj
deriving DecidableEq, Repr

/-- `getState()` = `{ ...state }`: every field is copied by value; in
particular `expandedDivisionsRef` is copied as the same reference into
the array heap. -/
def getStateCopy (m : RouterMem) : StateObj :=
  { currentView := m.state.currentView
    selectedDivisionId := m.state.selectedDivisionId
    selectedProjectId := m.state.selectedProjectId
    activeZone := m.state.activeZone
    expandedDivisionsRef := m.state.expandedDivisionsRef
    globalSearchTerm := m.state.globalSearchTerm
    reportsSearchTerm := m.state.reportsSearchTerm
    showActiveProjectsOnly := m.state.showActiveProjectsOnly }

/-- A caller doing `copy.expandedDivisions.push(d)`: a write to the array
heap at the reference held by the copy. -/
def arrayPush (m : RouterMem) (ref : Nat) (d : String) : RouterMem :=
  { m with arrays := m.arrays.set ref ((m.arrays.getD ref []) ++ [d]) }

/-- The Router-internal view of `state.expandedDivisions`, read through
the internal state object's reference. -/
def internalExpandedDivisions (m : RouterMem) : List String :=
  m.arrays.getD m.state.expandedDivisionsRef []

/-- The Router memory at start-up: one empty expanded-divisions array, the
internal state pointing at it. -/
def initialRouterMem : RouterMem :=
  { arrays := [[]]
    state :=
      { currentView := "home"
        selectedDivisionId := none
        selectedProjectId := none
        activeZone := 1
        expandedDivisionsRef := 0
        globalSearchTerm := ""
        reportsSearchTerm := ""
        showActiveProjectsOnly := true } }

-- =====================
-- CONCRETE FIXTURES
-- =====================

/-- A store with no records at all. -/
def exEmptyStore : Store :=
  { projects := [], requests := [], inProgressItems := [], reports := [], controlItems := [] }

/-- A project with id `p1`. -/
def exProjectP1 : Project :=
  { id := "p1", name := "Alpha", divisionId := "div-reinsurance", isActive := true,
    dateCreated := 0 }

/-- A request assigned to project `p1`. -/
def exRequestR1 : Request :=
  { id := "r1", description := "refresh model", requester := "dana",
    urgency := .medium, divisionId := some "div-reinsurance", projectId := some "p1",
    dateSubmitted := 5 }

/-- An in-progress item assigned to project `p1`. -/
def exProgressG1 : InProgressItem :=
  { id := "g1", taskDescription := "build dashboard", requester := "dana",
    status := "in-progress", targetCompletionDate := none,
    divisionId := some "div-reinsurance", projectId := some "p1", dateCreated := 1 }

/-- A report assigned to project `p1`. -/
def exReportT1 : Report :=
  { id := "t1", title := "monthly report", datePublished := 3, description := "",
    linkUrl := "", isActive := true, divisionId := some "div-reinsurance",
    projectId := some "p1", category := "recurring" }

/-- A store holding project `p1` and one request, in-progress item and
report all assigned to it. -/
def exStoreC1 : Store :=
  { projects := [exProjectP1], requests := [exRequestR1],
    inProgressItems := [exProgressG1], reports := [exReportT1], controlItems := [] }

/-- A control item of project `p1` with status `current`. -/
def exControlCurrent : ControlItem :=
  { id := "c1", projectId := some "p1", title := "NAV reconciliation",
    description := "", assignee := "", frequency := "monthly", lastCompleted := none,
    nextDue := none, status := "current", dateCreated := 0 }

/-- A control item of project `p1` with status `overdue`. -/
def exControlOverdue : ControlItem :=
  { id := "c2", projectId := some "p1", title := "quarterly audit",
    description := "", assignee := "", frequency := "quarterly", lastCompleted := none,
    nextDue := none, status := "overdue", dateCreated := 0 }

/-- A store holding a `current` control item listed before an `overdue`
one, both of project `p1`. -/
def exStoreC3 : Store :=
  { projects := [], requests := [], inProgressItems := [], reports := [],
    controlItems := [exControlCurrent, exControlOverdue] }

end AnalyticsHub

-- =====================
-- THEOREMS
-- =====================

namespace AnalyticsHub

/-- C10: the Project record created by `addProject` always has
`isActive = true` — the literal in `addProject` ignores any `isActive`
supplied in the input (the input is universally quantified, so in
particular an input carrying `isActive = some false` still yields an
active project) — and `updateProject`'s `Object.assign` does honour an
`isActive` update, so it is the operation that can deactivate a project. -/
theorem addProject_always_active (store : Store) (input : ProjectInput)
    (newId : String) (now : Int) :
    (addProject store input newId now).2.isActive = true ∧
      (∀ p : Project, (applyProjectUpdates p { isActive := some false }).isActive = false) := by
  constructor
  · rfl
  · intro p
    rfl

/-- C6: `selectProject(id)` with an id that resolves to no project in the
Store leaves the entire Router state unchanged. -/
theorem selectProject_absent_id_no_change (store : Store) (projectId : String)
    (st : RouterState) (h : getProjectById store projectId = none) :
    (selectProject store projectId st).1 = st := by
  simp [selectProject, h]

/-- C6 witness: the guard fires on the empty store with a nonexistent id,
and the initial state is returned untouched. -/
theorem selectProject_absent_id_no_change_witness :
    getProjectById exEmptyStore "nonexistent-id" = none ∧
      (selectProject exEmptyStore "nonexistent-id" initialRouterState).1 =
        initialRouterState :=
  ⟨rfl, selectProject_absent_id_no_change exEmptyStore "nonexistent-id"
    initialRouterState rfl⟩

/-- C9 counterexample: the claim says every listed transition invokes the
render callback exactly once per call, but `selectProject` on an id not in
the Store returns before `triggerRender`, so the callback is invoked zero
times, not once. -/
theorem selectProject_render_count_counterexample :
    (selectProject exEmptyStore "nonexistent-id" initialRouterState).2 = 0 ∧
      (selectProject exEmptyStore "nonexistent-id" initialRouterState).2 ≠ 1 := by
  constructor
  · rfl
  · decide

/-- C7: the three request getters return a permutation of the stored
(resp. filtered) requests that is sorted by the comparator order: urgency
rank ascending (`high` before `medium` before `low`), submission date
descending among equal urgencies. `List.Sorted requestLe` is pairwise
`requestLe`, which is exactly that ordering. -/
theorem request_getters_sorted (store : Store) (projectId : String) :
    List.Perm (getRequests store) store.requests ∧
      List.Sorted requestLe (getRequests store) ∧
      List.Perm (getRequestsByProject store projectId)
        (store.requests.filter (fun r => r.projectId == some projectId)) ∧
      List.Sorted requestLe (getRequestsByProject store projectId) ∧
      List.Perm (getUnassignedRequests store)
        (store.requests.filter (fun r => jsIdFalsy r.projectId)) ∧
      List.Sorted requestLe (getUnassignedRequests store) := by
  unfold getRequests getRequestsByProject getUnassignedRequests sortRequestsByUrgencyAndDate
  exact ⟨List.perm_insertionSort _ _, List.sorted_insertionSort _ _,
    List.perm_insertionSort _ _, List.sorted_insertionSort _ _,
    List.perm_insertionSort _ _, List.sorted_insertionSort _ _⟩

/-- C3: evaluation at the failing input. In a store whose control list
holds a `current` item before an `overdue` item of the same project,
`getControlItems` keeps the `current` item first: the lookup
`statusOrder[a.status] || 2` collapses the rank `0` of `overdue` to the
default `2` (the number `0` is falsy), so `overdue` ties with `current`
instead of sorting first as the claim requires. -/
theorem getControlItems_overdue_not_first :
    getControlItems exStoreC3 "p1" = [exControlCurrent, exControlOverdue] ∧
      exControlCurrent.status = "current" ∧ exControlOverdue.status = "overdue" :=
  ⟨rfl, rfl, rfl⟩

/-- C1: evaluation at the failing input. After `deleteProject "p1"` on a
store where one request, one in-progress item and one report reference
project `p1`, every one of those records still has `projectId = "p1"`:
none of them appears in the corresponding unassigned getter (which
filters `!projectId`), and every one still appears in the corresponding
by-project getter for the deleted id — the opposite of the claim on both
counts. -/
theorem deleteProject_items_stay_assigned :
    getUnassignedRequests (deleteProject exStoreC1 "p1") = [] ∧
      getRequestsByProject (deleteProject exStoreC1 "p1") "p1" = [exRequestR1] ∧
      getUnassignedInProgress (deleteProject exStoreC1 "p1") = [] ∧
      getInProgressByProject (deleteProject exStoreC1 "p1") "p1" = [exProgressG1] ∧
      getUnassignedReports (deleteProject exStoreC1 "p1") = [] ∧
      getReportsByProject (deleteProject exStoreC1 "p1") "p1" false = [exReportT1] :=
  ⟨rfl, rfl, rfl, rfl, rfl, rfl⟩

/-- C2: evaluation at the failing input. `getState` copies the state
object shallowly, so the returned object holds the same
`expandedDivisions` array reference as the internal state; pushing onto
the array through the returned copy changes the Router-internal
`expandedDivisions` from `[]` to `["div-real-estate"]`, contradicting the
claim that no caller can alter Router state through the returned value. -/
theorem getState_copy_aliases_expandedDivisions :
    internalExpandedDivisions initialRouterMem = [] ∧
      internalExpandedDivisions
        (arrayPush initialRouterMem
          (getStateCopy initialRouterMem).expandedDivisionsRef "div-real-estate") =
        ["div-real-estate"] :=
  ⟨rfl, rfl⟩

/-- C8: `getData` returns the empty collection on an absent or unreadable
slot instead of propagating the error; `saveData` returns its success as
a boolean — `false` with the slot left unchanged when the backing store
rejects the write, `true` with the items persisted when it accepts it —
and never throws (it is a total function). -/
theorem store_failure_semantics (slot : Slot) (writeOk : Bool) (items : List MigItem) :
    (slot = none ∨ slot = some none → getData slot = []) ∧
      (saveData writeOk slot items).1 = writeOk ∧
      (writeOk = false → (saveData writeOk slot items).2 = slot) ∧
      (writeOk = true → getData (saveData writeOk slot items).2 = items) := by
  refine ⟨?_, ?_, ?_, ?_⟩
  · rintro (rfl | rfl) <;> rfl
  · cases writeOk <;> rfl
  · rintro rfl; rfl
  · rintro rfl; rfl

/-- C8 witness: the fail-soft read on an absent and on an unreadable slot,
a failed write that leaves the slot as it was, and a successful write that
persists the items. -/
theorem store_failure_semantics_witness :
    getData (none : Slot) = [] ∧
      getData (some none : Slot) = [] ∧
      (saveData false (writeItems []) [{ payload := "x" }]).2 = writeItems [] ∧
      getData (saveData true (writeItems []) [{ payload := "x" }]).2 = [{ payload := "x" }] :=
  ⟨(store_failure_semantics none false []).1 (Or.inl rfl),
    (store_failure_semantics (some none) false []).1 (Or.inr rfl),
    (store_failure_semantics (writeItems []) false [{ payload := "x" }]).2.2.1 rfl,
    (store_failure_semantics (writeItems []) true [{ payload := "x" }]).2.2.2 rfl⟩

-- Helper lemmas about the migration model (shared, not claim theorems).

theorem versionLt_mono {v : Option Int} (h : versionLt v 2 = false) :
    versionLt v 1 = false := by
  cases v with
  | none => rfl
  | some k =>
    simp only [versionLt, decide_eq_false_iff_not] at h ⊢
    omega

theorem versionLt_one_implies_two {v : Option Int} (h : versionLt v 1 = true) :
    versionLt v 2 = true := by
  cases v with
  | none => exact absurd h (by simp [versionLt])
  | some k =>
    simp only [versionLt, decide_eq_true_eq] at h ⊢
    omega

theorem getData_writeItems (l : List MigItem) : getData (writeItems l) = l := rfl

theorem parsedVersion_step2 (x : Storage) : parsedVersion (step2 x) = some 2 := rfl

theorem runMigration_noop (x : Storage) (h : versionLt (parsedVersion x) 2 = false) :
    runMigration x = x := by
  simp [runMigration, h, versionLt_mono h]

theorem step1_requests (s : Storage) :
    (step1 s).requests = writeItems ((getData s.requests).map mig1Item) := by
  show (step1core s).requests = _
  unfold step1core
  cases s.clients <;> dsimp only <;> split_ifs <;> rfl

theorem step1_inProgress (s : Storage) :
    (step1 s).inProgress = writeItems ((getData s.inProgress).map mig1Item) := by
  show (step1core s).inProgress = _
  unfold step1core
  cases s.clients <;> dsimp only <;> split_ifs <;> rfl

theorem step1_reports (s : Storage) :
    (step1 s).reports =
      writeItems (((getData s.reports).map mig1Item).map categoryDefault) := by
  show (step1core s).reports = _
  unfold step1core
  cases s.clients <;> dsimp only <;> split_ifs <;> rfl

theorem step2_requests (x : Storage) : (step2 x).requests = mig2Slot x.requests := by
  show (step2core x).requests = _
  unfold step2core
  cases x.clients <;> first
    | rfl
    | (dsimp only; split_ifs <;> rfl)

theorem step2_inProgress (x : Storage) : (step2 x).inProgress = mig2Slot x.inProgress := by
  show (step2core x).inProgress = _
  unfold step2core
  cases x.clients <;> first
    | rfl
    | (dsimp only; split_ifs <;> rfl)

theorem step2_reports (x : Storage) : (step2 x).reports = mig2Slot x.reports := by
  show (step2core x).reports = _
  unfold step2core
  cases x.clients <;> first
    | rfl
    | (dsimp only; split_ifs <;> rfl)

theorem mig1Item_clientId (it : MigItem) : (mig1Item it).clientId = none := by
  unfold mig1Item
  cases hc : it.clientId <;> dsimp only <;> split_ifs <;> simp_all

theorem categoryDefault_clientId (it : MigItem) :
    (categoryDefault it).clientId = it.clientId := by
  unfold categoryDefault
  split_ifs <;> rfl

theorem mig2Item_of_clientId_none {it : MigItem} (h : it.clientId = none) :
    mig2Item it = it := by
  unfold mig2Item
  rw [h]

theorem map_mig2_eq_self {l : List MigItem} (h : ∀ it ∈ l, it.clientId = none) :
    l.map mig2Item = l := by
  induction l with
  | nil => rfl
  | cons a t ih =>
    simp only [List.map_cons]
    rw [mig2Item_of_clientId_none (h a (by simp)),
      ih (fun it hit => h it (by simp [hit]))]

theorem getData_mig2Slot (sl : Slot) :
    getData (mig2Slot sl) = (getData sl).map mig2Item := by
  match sl with
  | none => rfl
  | some none => rfl
  | some (some l) =>
    unfold mig2Slot
    dsimp only
    split_ifs with h
    · rfl
    · show l = l.map mig2Item
      refine (map_mig2_eq_self ?_).symm
      intro it hit
      cases hx : it.clientId with
      | none => rfl
      | some v =>
        exfalso
        exact h (List.any_eq_true.mpr ⟨it, hit, by simp [hx]⟩)

theorem entityMig_eq_mig1 {v : Option Int} (h1 : versionLt v 1 = true) :
    entityMig v = mig1Item :=
  funext fun it => by simp [entityMig, h1]

theorem entityMig_eq_mig2 {v : Option Int} (h1 : versionLt v 1 = false)
    (h2 : versionLt v 2 = true) : entityMig v = mig2Item :=
  funext fun it => by simp [entityMig, h1, h2]

theorem entityMig_eq_id {v : Option Int} (h1 : versionLt v 1 = false)
    (h2 : versionLt v 2 = false) : entityMig v = id :=
  funext fun it => by simp [entityMig, h1, h2]

theorem reportMig_eq_comp {v : Option Int} (h1 : versionLt v 1 = true) :
    reportMig v = categoryDefault ∘ mig1Item :=
  funext fun it => by simp [reportMig, h1]

theorem reportMig_eq_mig2 {v : Option Int} (h1 : versionLt v 1 = false)
    (h2 : versionLt v 2 = true) : reportMig v = mig2Item :=
  funext fun it => by simp [reportMig, h1, h2]

theorem reportMig_eq_id {v : Option Int} (h1 : versionLt v 1 = false)
    (h2 : versionLt v 2 = false) : reportMig v = id :=
  funext fun it => by simp [reportMig, h1, h2]

/-- C4: `runMigration` is idempotent — a second run produces backing-store
contents identical to the first. After a run whose `currentVersion < 2`
guard fired, the persisted version is `2`, so both guards of a repeated
run are false and it changes nothing; when neither guard fired, the first
run already changed nothing. -/
theorem runMigration_idempotent (s : Storage) :
    runMigration (runMigration s) = runMigration s := by
  by_cases h2 : versionLt (parsedVersion s) 2 = true
  · have hrun : runMigration s =
        step2 (if versionLt (parsedVersion s) 1 then step1 s else s) := by
      simp [runMigration, h2]
    rw [hrun]
    exact runMigration_noop _ rfl
  · have h2f : versionLt (parsedVersion s) 2 = false := by
      simpa using h2
    rw [runMigration_noop s h2f, runMigration_noop s h2f]

/-- C5: migration preserves records. For every backing store, the
requests, in-progress and reports collections after `runMigration` are
exactly the element-wise images of the collections before it under the
per-record field adjustments (`clientId` renamed to `projectId`,
`divisionId`/`projectId` defaulted to `null`, report `category` defaulted
to `recurring`, selected by the pre-migration version) — a `List.map`, so
no record is dropped, none is duplicated, and order is preserved. -/
theorem runMigration_preserves_records (s : Storage) :
    getData (runMigration s).requests =
        (getData s.requests).map (entityMig (parsedVersion s)) ∧
      getData (runMigration s).inProgress =
        (getData s.inProgress).map (entityMig (parsedVersion s)) ∧
      getData (runMigration s).reports =
        (getData s.reports).map (reportMig (parsedVersion s)) := by
  by_cases h1 : versionLt (parsedVersion s) 1 = true
  · have h2 : versionLt (parsedVersion s) 2 = true := versionLt_one_implies_two h1
    have hrun : runMigration s = step2 (step1 s) := by
      simp [runMigration, h1, h2]
    have hnone : ∀ it ∈ (getData s.requests).map mig1Item, it.clientId = none := by
      intro it hit
      rcases List.mem_map.mp hit with ⟨a, _, rfl⟩
      exact mig1Item_clientId a
    have hnoneP : ∀ it ∈ (getData s.inProgress).map mig1Item, it.clientId = none := by
      intro it hit
      rcases List.mem_map.mp hit with ⟨a, _, rfl⟩
      exact mig1Item_clientId a
    have hnoneR :
        ∀ it ∈ ((getData s.reports).map mig1Item).map categoryDefault,
          it.clientId = none := by
      intro it hit
      rcases List.mem_map.mp hit with ⟨a, ha, rfl⟩
      rcases List.mem_map.mp ha with ⟨b, _, rfl⟩
      rw [categoryDefault_clientId]
      exact mig1Item_clientId b
    refine ⟨?_, ?_, ?_⟩
    · rw [hrun, step2_requests, step1_requests, getData_mig2Slot, getData_writeItems,
        map_mig2_eq_self hnone, entityMig_eq_mig1 h1]
    · rw [hrun, step2_inProgress, step1_inProgress, getData_mig2Slot, getData_writeItems,
        map_mig2_eq_self hnoneP, entityMig_eq_mig1 h1]
    · rw [hrun, step2_reports, step1_reports, getData_mig2Slot, getData_writeItems,
        map_mig2_eq_self hnoneR, List.map_map, reportMig_eq_comp h1]
  · have h1f : versionLt (parsedVersion s) 1 = false := by simpa using h1
    by_cases h2 : versionLt (parsedVersion s) 2 = true
    · have hrun : runMigration s = step2 s := by
        simp [runMigration, h1f, h2]
      refine ⟨?_, ?_, ?_⟩
      · rw [hrun, step2_requests, getData_mig2Slot, entityMig_eq_mig2 h1f h2]
      · rw [hrun, step2_inProgress, getData_mig2Slot, entityMig_eq_mig2 h1f h2]
      · rw [hrun, step2_reports, getData_mig2Slot, reportMig_eq_mig2 h1f h2]
    · have h2f : versionLt (parsedVersion s) 2 = false := by simpa using h2
      rw [runMigration_noop s h2f, entityMig_eq_id h1f h2f, reportMig_eq_id h1f h2f]
      simp

/-- C9 (amended): every Router transition invokes the registered render
callback exactly once per call, except `selectProject` with an id not
present in the Store, which aborts without invoking it (zero calls). -/
theorem transitions_render_exactly_once (store : Store) (st : RouterState)
    (view term divisionId projectId : String)
    (params : Option (RouterState → RouterState)) (zoneNumber : Nat) (value : Bool) :
    (navigate view params st).2 = 1 ∧
      (selectProject store projectId st).2 =
        (if (getProjectById store projectId).isSome then 1 else 0) ∧
      (setActiveZone zoneNumber st).2 = 1 ∧
      (toggleDivision divisionId st).2 = 1 ∧
      (setGlobalSearch term st).2 = 1 ∧
      (setReportsSearch term st).2 = 1 ∧
      (setActiveProjectsOnly value st).2 = 1 ∧
      (goHome st).2 = 1 := by
  refine ⟨?_, ?_, rfl, ?_, rfl, rfl, rfl, rfl⟩
  · cases params <;> rfl
  · cases h : getProjectById store projectId <;> simp [selectProject, h]
  · unfold toggleDivision
    split <;> rfl

end AnalyticsHub
